import Mathlib

/-!
Verification of the beam-state conversion engine and the recursion guard
of the acc-companion repository.

The relevant code lives in `src/acc_companion/beam.py` (class `Beam`) and
`src/acc_companion/utils.py` (class `Guard`).  Python floats are modelled
as real numbers; `math.sqrt` is modelled by `Real.sqrt` together with an
explicit domain check (Python raises `ValueError: math domain error` on a
negative argument) and an explicit zero-divisor check where the code
divides (Python raises `ZeroDivisionError`).  Setters that can raise are
modelled as `Except String Beam`; an error value means the exception
propagates and the object's canonical `energy` is left untouched, exactly
as in the Python code where the assignment to `self.energy` is the last
statement of each setter.
-/

namespace AccCompanion

/-- `SPEED_OF_LIGHT = 299792458.0  # [m/s]` from beam.py. -/
def SPEED_OF_LIGHT : ℝ := 299792458

/-- The state of a `Beam` object: `mass` and `charge` are set in
`__init__`; `energy` is the single canonical stored quantity (a plain
attribute, written without any validation).  The four derived quantities
`momentum`, `gamma`, `beta`, `rigidity` are properties computed from
these three fields. -/
structure Beam where
  mass : ℝ
  charge : ℤ
  energy : ℝ

/-- Getter `momentum`: `math.sqrt(self.energy**2 - self.mass**2)`. -/
noncomputable def Beam.momentum (b : Beam) : ℝ :=
  Real.sqrt (b.energy ^ 2 - b.mass ^ 2)

/-- Getter `gamma`: `self.energy / self.mass`. -/
noncomputable def Beam.gamma (b : Beam) : ℝ :=
  b.energy / b.mass

/-- Getter `beta`: `math.sqrt(1. - 1./self.gamma**2)`. -/
noncomputable def Beam.beta (b : Beam) : ℝ :=
  Real.sqrt (1 - 1 / b.gamma ^ 2)

/-- Getter `rigidity`: `self.momentum / (abs(self.charge) * SPEED_OF_LIGHT * 1e-9)`. -/
noncomputable def Beam.rigidity (b : Beam) : ℝ :=
  b.momentum / (|(b.charge : ℝ)| * SPEED_OF_LIGHT * (1 / 10 ^ 9))

/-- Direct write to the plain attribute `energy` (`self.energy = value`);
the code performs no validation here. -/
def Beam.setEnergy (b : Beam) (e : ℝ) : Beam :=
  { b with energy := e }

/-- Setter `momentum`: `self.energy = math.sqrt(momentum**2 + self.mass**2)`.
The argument of `math.sqrt` is a sum of squares, hence never negative, so
this setter never raises. -/
noncomputable def Beam.setMomentum (b : Beam) (p : ℝ) : Beam :=
  { b with energy := Real.sqrt (p ^ 2 + b.mass ^ 2) }

/-- Setter `gamma`: raises `ValueError('gamma must be >= 1')` when
`gamma < 1`, otherwise `self.energy = gamma * self.mass`. -/
noncomputable def Beam.setGamma (b : Beam) (g : ℝ) : Except String Beam :=
  if g < 1 then .error "gamma must be >= 1"
  else .ok { b with energy := g * b.mass }

/-- Setter `beta`: `self.energy = self.mass / math.sqrt(1. - beta**2)`.
When `1 - beta**2 < 0` Python's `math.sqrt` raises a `math domain error`;
when `1 - beta**2 = 0` the square root is `0` and the division raises a
`ZeroDivisionError`.  The code performs no other validation. -/
noncomputable def Beam.setBeta (b : Beam) (be : ℝ) : Except String Beam :=
  if 1 - be ^ 2 < 0 then .error "math domain error"
  else if 1 - be ^ 2 = 0 then .error "division by zero"
  else .ok { b with energy := b.mass / Real.sqrt (1 - be ^ 2) }

/-- Setter `rigidity`: `self.momentum = rigidity * abs(self.charge) * SPEED_OF_LIGHT * 1e-9`,
which goes through the `momentum` setter and never raises. -/
noncomputable def Beam.setRigidity (b : Beam) (r : ℝ) : Beam :=
  b.setMomentum (r * |(b.charge : ℝ)| * SPEED_OF_LIGHT * (1 / 10 ^ 9))

/-- `Beam.__init__`: stores `mass` and `charge`, then scans the tuple
`energy_definition_precedence = ('energy', 'momentum', 'gamma', 'beta', 'rigidity')`
and seeds the canonical energy with the first argument that is not `None`,
via `setattr` (so the corresponding property setter runs and its
validation applies; `energy` itself is a plain attribute with no
validation).  If none is supplied, it raises
`ValueError('Beam energy must be specified via one of ...')`.
Before the seeding write, `self.energy` does not exist yet; no setter
reads it, so the placeholder value `0` below is never observed. -/
noncomputable def Beam.init (mass : ℝ) (charge : ℤ)
    (energy momentum gamma beta rigidity : Option ℝ) : Except String Beam :=
  let b : Beam := { mass := mass, charge := charge, energy := 0 }
  match energy, momentum, gamma, beta, rigidity with
  | some e, _, _, _, _ => .ok (b.setEnergy e)
  | none, some p, _, _, _ => .ok (b.setMomentum p)
  | none, none, some g, _, _ => b.setGamma g
  | none, none, none, some be, _ => b.setBeta be
  | none, none, none, none, some r => .ok (b.setRigidity r)
  | none, none, none, none, none =>
      .error "Beam energy must be specified via one of (energy, momentum, gamma, beta, rigidity)"

/-- The outcome of a write attempt through the `gamma` setter, seen from
the caller: on success the mutated object and `true`, on a raised
exception the untouched object and `false` (the assignment to
`self.energy` is the setter's last statement, so a raise leaves the prior
canonical state in place). -/
noncomputable def Beam.writeGamma (b : Beam) (g : ℝ) : Beam × Bool :=
  match b.setGamma g with
  | .ok b1 => (b1, true)
  | .error _ => (b, false)

/-- The outcome of a write attempt through the `beta` setter, seen from
the caller (same convention as `Beam.writeGamma`). -/
noncomputable def Beam.writeBeta (b : Beam) (v : ℝ) : Beam × Bool :=
  match b.setBeta v with
  | .ok b1 => (b1, true)
  | .error _ => (b, false)

/-- The state invariants of the specification: `energy >= mass`,
`gamma >= 1` and `0 <= beta < 1`. -/
def Beam.satInv (b : Beam) : Prop :=
  b.mass ≤ b.energy ∧ 1 ≤ b.gamma ∧ 0 ≤ b.beta ∧ b.beta < 1

/-!
The `Guard` class of `src/acc_companion/utils.py`.  A guard holds one
mutable boolean `blocks`.  Handlers are modelled as state transformers on
the guard (the Python handler closes over the same guard object through
the wrapper) that return an `Except String α`: an `error` value models an
exception raised by the handler body, which still leaves the guard in the
state the body put it in (Python exceptions do not roll back state).
-/

structure Guard where
  blocks : Bool
  deriving Repr, DecidableEq

/-- `Guard.block`: raises `AlreadyBlocksError` when `self.blocks` is
already set, otherwise sets `self.blocks = True`. -/
def Guard.block (g : Guard) : Except String Guard :=
  if g.blocks then .error "AlreadyBlocksError" else .ok { g with blocks := true }

/-- `Guard.unblock`: sets `self.blocks = False`. -/
def Guard.unblock (g : Guard) : Guard :=
  { g with blocks := false }

/-- Python `with guard: body` — `__enter__` calls `block`, the body runs,
and `__exit__` calls `unblock` on every exit path, both on normal return
and when the body raises (so an error result of the body still goes
through `unblock`). -/
def Guard.withGuard {α : Type} (g : Guard) (body : Guard → Guard × Except String α) :
    Guard × Except String α :=
  match g.block with
  | .error e => (g, .error e)
  | .ok g1 =>
      let (g2, r) := body g1
      (g2.unblock, r)

/-- `Guard.block_recursion`'s `wrapper`: `if not guard.blocks: with guard:
return func(*args, **kwargs)`.  When the guard already blocks, the body is
not executed and the wrapper falls through, returning `None` (modelled as
`Except.ok none`); otherwise the handler's value `a` is returned as
`Except.ok (some a)` and a raised exception propagates as `Except.error`. -/
def Guard.blockRecursion {α : Type} (body : Guard → Guard × Except String α)
    (g : Guard) : Guard × Except String (Option α) :=
  if g.blocks then (g, .ok none)
  else
    let (g1, r) := g.withGuard body
    (g1, r.map some)

/-- A guarded handler that executes its body (counting one execution) and
then re-invokes its own wrapped self, as when a sibling-field write fires
the same handler again from inside it.  `fuel` bounds the re-entrance
depth; the returned number counts how many times the handler body ran
(one for this body plus however many the re-entrant call reports).  Fuel
exhaustion is reported as an error so that it cannot be mistaken for the
guard's silent skip. -/
def selfCallingRun : Nat → Guard → Guard × Except String (Option Nat)
  | 0, g => (g, .error "fuel exhausted")
  | n + 1, g =>
      Guard.blockRecursion (fun g1 =>
        let (g2, inner) := selfCallingRun n g1
        let innerCount := match inner with
          | .ok (some k) => k
          | _ => 0
        (g2, .ok (1 + innerCount))) g

/-!
Helper lemmas shared by the claim theorems below.
-/

/-- Helper: a wrapper call that finds the guard engaged does nothing and
produces no result, whatever the handler body is. -/
theorem blockRecursion_of_blocks {α : Type} (body : Guard → Guard × Except String α)
    (g : Guard) (h : g.blocks = true) :
    Guard.blockRecursion body g = (g, Except.ok none) := by
  simp [Guard.blockRecursion, h]

/-- Helper: a wrapper call that finds the guard free runs the body once on
the engaged guard, releases the guard taken from the body, and forwards
the body's outcome. -/
theorem blockRecursion_of_free {α : Type} (body : Guard → Guard × Except String α)
    (g : Guard) (h : g.blocks = false) :
    Guard.blockRecursion body g = ((body ⟨true⟩).1.unblock, (body ⟨true⟩).2.map some) := by
  have hg : g = ⟨false⟩ := by cases g; simpa using h
  subst hg
  simp [Guard.blockRecursion, Guard.withGuard, Guard.block]

/-- C7: invoking a guarded handler while the guard is engaged is a no-op
(the body does not run and no result is produced), and a self-invoking
guarded handler started with the guard free executes its body exactly
once — the inner re-entrant call is skipped by the guard. -/
theorem guard_reentrancy_noop :
    (∀ (α : Type) (body : Guard → Guard × Except String α) (g : Guard),
        g.blocks = true → Guard.blockRecursion body g = (g, Except.ok none)) ∧
    (∀ n : Nat, selfCallingRun (n + 2) ⟨false⟩ = (⟨false⟩, Except.ok (some 1))) := by
  constructor
  · exact fun α body g h => blockRecursion_of_blocks body g h
  · intro n
    have hskip : selfCallingRun (n + 1) ⟨true⟩ = (⟨true⟩, Except.ok none) := by
      show Guard.blockRecursion _ _ = _
      exact blockRecursion_of_blocks _ _ rfl
    show Guard.blockRecursion _ _ = _
    rw [blockRecursion_of_free _ _ rfl]
    simp [hskip, Guard.unblock, Except.map]

/-- C7 witness: at the engaged guard the wrapper returns the skip outcome,
and the self-invoking handler with fuel 2 runs its body exactly once. -/
theorem guard_reentrancy_noop_witness :
    (Guard.mk true).blocks = true ∧
    Guard.blockRecursion (fun g => (g, Except.ok (5 : Nat))) ⟨true⟩ = (⟨true⟩, Except.ok none) ∧
    selfCallingRun 2 ⟨false⟩ = (⟨false⟩, Except.ok (some 1)) :=
  ⟨rfl, guard_reentrancy_noop.1 Nat (fun g => (g, Except.ok (5 : Nat))) ⟨true⟩ rfl,
    guard_reentrancy_noop.2 0⟩

/-- C8: a wrapper invocation that starts with the guard free engages the
guard, runs the handler body on the engaged guard, releases the guard on
every exit path (this is `Guard.unblock`, applied unconditionally), and
forwards the handler's outcome — a normal return value as a result, a
raised exception as a propagated error. -/
theorem guard_engage_run_release {α : Type} (body : Guard → Guard × Except String α)
    (g : Guard) (h : g.blocks = false) :
    (Guard.blockRecursion body g).1.blocks = false ∧
    (Guard.blockRecursion body g).2 = ((body ⟨true⟩).2).map some := by
  rw [blockRecursion_of_free body g h]
  exact ⟨rfl, rfl⟩

/-- C8 witness: a concrete free guard, a handler that returns `7`, and a
handler that raises; in both cases the guard ends free and the outcome is
forwarded. -/
theorem guard_engage_run_release_witness :
    (Guard.mk false).blocks = false ∧
    (Guard.blockRecursion (fun g => (g, Except.ok (7 : Nat))) ⟨false⟩).1.blocks = false ∧
    (Guard.blockRecursion (fun g => (g, Except.ok (7 : Nat))) ⟨false⟩).2
      = Except.ok (some 7) ∧
    (Guard.blockRecursion (fun g => (g, (Except.error "boom" : Except String Nat))) ⟨false⟩).2
      = Except.error "boom" := by
  refine ⟨rfl, (guard_engage_run_release _ ⟨false⟩ rfl).1, ?_, ?_⟩
  · rw [(guard_engage_run_release (fun g => (g, Except.ok (7 : Nat))) ⟨false⟩ rfl).2]
    rfl
  · rw [(guard_engage_run_release
      (fun g => (g, (Except.error "boom" : Except String Nat))) ⟨false⟩ rfl).2]
    rfl

/-- C4: writing any `g < 1` through the gamma setter raises
`ValueError('gamma must be >= 1')` and leaves the canonical energy
unchanged. -/
theorem gamma_write_rejected (m E0 g : ℝ) (q : ℤ) (h : g < 1) :
    (Beam.mk m q E0).setGamma g = Except.error "gamma must be >= 1" ∧
    (Beam.mk m q E0).writeGamma g = (Beam.mk m q E0, false) := by
  have h1 : (Beam.mk m q E0).setGamma g = Except.error "gamma must be >= 1" := by
    simp [Beam.setGamma, h]
  refine ⟨h1, ?_⟩
  simp [Beam.writeGamma, h1]

/-- C4 witness: writing `gamma = 0.5` to a beam with mass 1, charge 1,
energy 2 fails and leaves the state unchanged. -/
theorem gamma_write_rejected_witness :
    ((1 : ℝ) / 2 < 1) ∧
    (Beam.mk 1 1 2).setGamma (1 / 2) = Except.error "gamma must be >= 1" ∧
    (Beam.mk 1 1 2).writeGamma (1 / 2) = (Beam.mk 1 1 2, false) :=
  ⟨by norm_num, (gamma_write_rejected 1 2 (1 / 2) 1 (by norm_num)).1,
    (gamma_write_rejected 1 2 (1 / 2) 1 (by norm_num)).2⟩

/-- C5: the construction precedence scan stops at the first non-absent
entry of `(energy, momentum, gamma, beta, rigidity)` — that quantity alone
seeds the canonical energy through its setter and every lower-precedence
argument is ignored, whatever it is: a supplied `energy` wins over all
four others, a supplied `momentum` (energy absent) wins over gamma, beta
and rigidity, a supplied `gamma` (energy, momentum absent) wins over beta
and rigidity, a supplied `beta` (energy, momentum, gamma absent) wins
over rigidity, and `rigidity` alone seeds through the rigidity setter; in
particular `mass=1, charge=1, energy=2, momentum=100` yields energy 2. -/
theorem construction_precedence :
    (∀ (m e : ℝ) (q : ℤ) (mom ga be ri : Option ℝ),
       Beam.init m q (some e) mom ga be ri = Except.ok (Beam.mk m q e)) ∧
    (∀ (m p : ℝ) (q : ℤ) (ga be ri : Option ℝ),
       Beam.init m q none (some p) ga be ri
         = Except.ok ((Beam.mk m q 0).setMomentum p)) ∧
    (∀ (m g : ℝ) (q : ℤ) (be ri : Option ℝ),
       Beam.init m q none none (some g) be ri = (Beam.mk m q 0).setGamma g) ∧
    (∀ (m v : ℝ) (q : ℤ) (ri : Option ℝ),
       Beam.init m q none none none (some v) ri = (Beam.mk m q 0).setBeta v) ∧
    (∀ (m r : ℝ) (q : ℤ),
       Beam.init m q none none none none (some r)
         = Except.ok ((Beam.mk m q 0).setRigidity r)) ∧
    Beam.init 1 1 (some 2) (some 100) none none none = Except.ok (Beam.mk 1 1 2) :=
  ⟨fun _ _ _ _ _ _ _ => rfl, fun _ _ _ _ _ _ => rfl, fun _ _ _ _ _ => rfl,
    fun _ _ _ _ => rfl, fun _ _ _ => rfl, rfl⟩

/-- C6: construction with mass and charge but none of the five quantities
fails with the incomplete-specification error; no beam results. -/
theorem construction_incomplete (m : ℝ) (q : ℤ) :
    Beam.init m q none none none none none =
      Except.error
        "Beam energy must be specified via one of (energy, momentum, gamma, beta, rigidity)" :=
  rfl

/-- C9: construction seeds the canonical energy through the quantity's
setter, so constructing from `gamma = g < 1` (with no higher-precedence
quantity supplied) raises the same `gamma must be >= 1` error as a
post-construction write, and no beam results. -/
theorem construction_gamma_validated (m g : ℝ) (q : ℤ) (be ri : Option ℝ) (h : g < 1) :
    Beam.init m q none none (some g) be ri = Except.error "gamma must be >= 1" := by
  show (Beam.mk m q 0).setGamma g = _
  simp [Beam.setGamma, h]

/-- C9 witness: constructing with mass 1, charge 1, `gamma = 0.5` fails
with the gamma domain error. -/
theorem construction_gamma_validated_witness :
    ((1 : ℝ) / 2 < 1) ∧
    Beam.init 1 1 none none (some (1 / 2)) none none = Except.error "gamma must be >= 1" :=
  ⟨by norm_num, construction_gamma_validated 1 (1 / 2) 1 none none (by norm_num)⟩

/-- C10: the momentum setter is an even function of its argument — `p` and
`-p` yield the same state with canonical energy `sqrt(p^2 + mass^2)` — and
likewise the rigidity setter accepts a negative rigidity, giving the same
state as its absolute value would. -/
theorem momentum_setter_even (m E0 p r : ℝ) (q : ℤ) (hm : 0 < m) :
    (Beam.mk m q E0).setMomentum p = (Beam.mk m q E0).setMomentum (-p) ∧
    ((Beam.mk m q E0).setMomentum p).energy = Real.sqrt (p ^ 2 + m ^ 2) ∧
    (Beam.mk m q E0).setRigidity r = (Beam.mk m q E0).setRigidity (-r) := by
  refine ⟨?_, rfl, ?_⟩
  · have hp : (-p) ^ 2 = p ^ 2 := by ring
    simp [Beam.setMomentum, hp]
  · have hr : (-r * |((q : ℤ) : ℝ)| * SPEED_OF_LIGHT * (1 / 10 ^ 9)) ^ 2
        = (r * |((q : ℤ) : ℝ)| * SPEED_OF_LIGHT * (1 / 10 ^ 9)) ^ 2 := by ring
    simp [Beam.setRigidity, Beam.setMomentum, hr]

/-- C10 witness: at mass 1, charge 1, energy 2, momentum 3 and rigidity 4
the evenness equalities hold. -/
theorem momentum_setter_even_witness :
    ((0 : ℝ) < 1) ∧
    (Beam.mk 1 1 2).setMomentum 3 = (Beam.mk 1 1 2).setMomentum (-3) ∧
    (Beam.mk 1 1 2).setRigidity 4 = (Beam.mk 1 1 2).setRigidity (-4) :=
  ⟨by norm_num, (momentum_setter_even 1 2 3 4 1 (by norm_num)).1,
    (momentum_setter_even 1 2 3 4 1 (by norm_num)).2.2⟩

/-!
Round-trip lemmas for C1: reading a quantity and writing it back restores
the canonical energy exactly (real-number model of the float formulas).
-/

/-- Helper: momentum getter/setter round trip. -/
theorem setMomentum_roundtrip (m E E0 : ℝ) (q : ℤ) (hm : 0 < m) (hE : m ≤ E) :
    (Beam.mk m q E0).setMomentum ((Beam.mk m q E).momentum) = Beam.mk m q E := by
  have hE0 : (0 : ℝ) ≤ E := le_trans hm.le hE
  have hsq : (0 : ℝ) ≤ E ^ 2 - m ^ 2 := by nlinarith
  show Beam.mk m q (Real.sqrt ((Beam.mk m q E).momentum ^ 2 + m ^ 2)) = Beam.mk m q E
  have hfin : Real.sqrt ((Beam.mk m q E).momentum ^ 2 + m ^ 2) = E := by
    show Real.sqrt (Real.sqrt (E ^ 2 - m ^ 2) ^ 2 + m ^ 2) = E
    rw [Real.sq_sqrt hsq, (by ring : E ^ 2 - m ^ 2 + m ^ 2 = E ^ 2), Real.sqrt_sq hE0]
  rw [hfin]

/-- Helper: gamma getter/setter round trip. -/
theorem setGamma_roundtrip (m E E0 : ℝ) (q : ℤ) (hm : 0 < m) (hE : m ≤ E) :
    (Beam.mk m q E0).setGamma ((Beam.mk m q E).gamma) = Except.ok (Beam.mk m q E) := by
  have hγ : (1 : ℝ) ≤ E / m := (one_le_div hm).mpr hE
  have hne : ¬ ((Beam.mk m q E).gamma < 1) := not_lt.mpr hγ
  simp only [Beam.setGamma, if_neg hne]
  have hfin : (Beam.mk m q E).gamma * m = E := by
    show E / m * m = E
    exact div_mul_cancel₀ E hm.ne'
  rw [hfin]

/-- Helper: beta getter/setter round trip. -/
theorem setBeta_roundtrip (m E E0 : ℝ) (q : ℤ) (hm : 0 < m) (hE : m ≤ E) :
    (Beam.mk m q E0).setBeta ((Beam.mk m q E).beta) = Except.ok (Beam.mk m q E) := by
  have hγ : (1 : ℝ) ≤ E / m := (one_le_div hm).mpr hE
  have hγpos : (0 : ℝ) < E / m := lt_of_lt_of_le one_pos hγ
  have harg : (0 : ℝ) ≤ 1 - 1 / (E / m) ^ 2 := by
    have h1 : (1 : ℝ) ≤ (E / m) ^ 2 := by nlinarith
    have h2 : 1 / (E / m) ^ 2 ≤ 1 := by
      rw [div_le_one (by positivity)]
      exact h1
    linarith
  have key : 1 - (Beam.mk m q E).beta ^ 2 = 1 / (E / m) ^ 2 := by
    show 1 - Real.sqrt (1 - 1 / (E / m) ^ 2) ^ 2 = 1 / (E / m) ^ 2
    rw [Real.sq_sqrt harg]
    ring
  have hpos : (0 : ℝ) < 1 / (E / m) ^ 2 := by positivity
  simp only [Beam.setBeta, key, if_neg (not_lt.mpr hpos.le), if_neg hpos.ne']
  have hfin : m / Real.sqrt (1 / (E / m) ^ 2) = E := by
    rw [one_div, Real.sqrt_inv, Real.sqrt_sq hγpos.le, div_inv_eq_mul,
      mul_div_cancel₀ E hm.ne']
  rw [hfin]

/-- Helper: the rigidity getter's divisor cancels against the setter's
multiplier when the charge is non-zero. -/
theorem rigidity_mul_cancel (p : ℝ) (q : ℤ) (hq : q ≠ 0) :
    p / (|(q : ℝ)| * SPEED_OF_LIGHT * (1 / 10 ^ 9)) * |(q : ℝ)| * SPEED_OF_LIGHT
      * (1 / 10 ^ 9) = p := by
  have hq1 : |(q : ℝ)| ≠ 0 := abs_ne_zero.mpr (Int.cast_ne_zero.mpr hq)
  have hc : SPEED_OF_LIGHT ≠ 0 := by norm_num [SPEED_OF_LIGHT]
  field_simp
  ring

/-- Helper: rigidity getter/setter round trip. -/
theorem setRigidity_roundtrip (m E E0 : ℝ) (q : ℤ) (hm : 0 < m) (hq : q ≠ 0)
    (hE : m ≤ E) :
    (Beam.mk m q E0).setRigidity ((Beam.mk m q E).rigidity) = Beam.mk m q E := by
  have hrig : (Beam.mk m q E).rigidity
      = (Beam.mk m q E).momentum / (|(q : ℝ)| * SPEED_OF_LIGHT * (1 / 10 ^ 9)) := rfl
  show (Beam.mk m q E0).setMomentum
      ((Beam.mk m q E).rigidity * |(q : ℝ)| * SPEED_OF_LIGHT * (1 / 10 ^ 9))
      = Beam.mk m q E
  rw [hrig, rigidity_mul_cancel _ q hq]
  exact setMomentum_roundtrip m E E0 q hm hE

/-- C1: for mass > 0, charge != 0 and energy >= mass, reading any of
momentum, gamma, beta, rigidity from a beam and writing the read value
back through that quantity's setter (into a fresh beam with the same mass
and charge and arbitrary prior energy) reproduces the original energy
exactly — getters and setters are mutual inverses. -/
theorem roundtrip_inverse (m E E0 : ℝ) (q : ℤ) (hm : 0 < m) (hq : q ≠ 0) (hE : m ≤ E) :
    (Beam.mk m q E0).setMomentum ((Beam.mk m q E).momentum) = Beam.mk m q E ∧
    (Beam.mk m q E0).setGamma ((Beam.mk m q E).gamma) = Except.ok (Beam.mk m q E) ∧
    (Beam.mk m q E0).setBeta ((Beam.mk m q E).beta) = Except.ok (Beam.mk m q E) ∧
    (Beam.mk m q E0).setRigidity ((Beam.mk m q E).rigidity) = Beam.mk m q E :=
  ⟨setMomentum_roundtrip m E E0 q hm hE, setGamma_roundtrip m E E0 q hm hE,
    setBeta_roundtrip m E E0 q hm hE, setRigidity_roundtrip m E E0 q hm hq hE⟩

/-- C1 witness: mass 3, charge 2, energy 5, seeded fresh beam with prior
energy 7; all four round trips restore energy 5. -/
theorem roundtrip_inverse_witness :
    ((0 : ℝ) < 3) ∧ ((2 : ℤ) ≠ 0) ∧ ((3 : ℝ) ≤ 5) ∧
    (Beam.mk 3 2 7).setGamma ((Beam.mk 3 2 5).gamma) = Except.ok (Beam.mk 3 2 5) ∧
    (Beam.mk 3 2 7).setMomentum ((Beam.mk 3 2 5).momentum) = Beam.mk 3 2 5 :=
  ⟨by norm_num, by decide, by norm_num,
    (roundtrip_inverse 3 5 7 2 (by norm_num) (by decide) (by norm_num)).2.1,
    (roundtrip_inverse 3 5 7 2 (by norm_num) (by decide) (by norm_num)).1⟩

/-!
Invariant lemmas for C2 and domain lemmas for C3.
-/

/-- Helper: any state whose stored energy is at least its positive mass
satisfies all three invariants of the specification. -/
theorem satInv_of_energy_ge_mass (m E : ℝ) (q : ℤ) (hm : 0 < m) (hE : m ≤ E) :
    (Beam.mk m q E).satInv := by
  have hγ : (1 : ℝ) ≤ E / m := (one_le_div hm).mpr hE
  have hγpos : (0 : ℝ) < E / m := lt_of_lt_of_le one_pos hγ
  have hinv : (0 : ℝ) < 1 / (E / m) ^ 2 := by positivity
  refine ⟨hE, hγ, Real.sqrt_nonneg _, ?_⟩
  show Real.sqrt (1 - 1 / (E / m) ^ 2) < 1
  rw [Real.sqrt_lt' one_pos, one_pow]
  linarith

/-- Helper: a momentum write always yields a state satisfying the
invariants (for positive mass). -/
theorem satInv_setMomentum (m E0 p : ℝ) (q : ℤ) (hm : 0 < m) :
    ((Beam.mk m q E0).setMomentum p).satInv := by
  have hE : m ≤ Real.sqrt (p ^ 2 + m ^ 2) := by
    rw [Real.le_sqrt hm.le (by positivity)]
    nlinarith
  exact satInv_of_energy_ge_mass m _ q hm hE

/-- Helper: a successful gamma write yields a state satisfying the
invariants. -/
theorem satInv_setGamma (m E0 g : ℝ) (q : ℤ) (b1 : Beam) (hm : 0 < m)
    (h : (Beam.mk m q E0).setGamma g = Except.ok b1) : b1.satInv := by
  by_cases hg : g < 1
  · simp [Beam.setGamma, hg] at h
  · simp only [Beam.setGamma, if_neg hg] at h
    injection h with h1
    subst h1
    have hE : m ≤ g * m := le_mul_of_one_le_left hm.le (not_lt.mp hg)
    exact satInv_of_energy_ge_mass m _ q hm hE

/-- Helper: a successful beta write yields a state satisfying the
invariants. -/
theorem satInv_setBeta (m E0 v : ℝ) (q : ℤ) (b1 : Beam) (hm : 0 < m)
    (h : (Beam.mk m q E0).setBeta v = Except.ok b1) : b1.satInv := by
  by_cases h1 : 1 - v ^ 2 < 0
  · simp [Beam.setBeta, h1] at h
  · by_cases h2 : 1 - v ^ 2 = 0
    · simp [Beam.setBeta, h1, h2] at h
    · simp only [Beam.setBeta, if_neg h1, if_neg h2] at h
      injection h with h3
      subst h3
      have hpos : (0 : ℝ) < 1 - v ^ 2 := lt_of_le_of_ne (not_lt.mp h1) (Ne.symm h2)
      have hs1 : Real.sqrt (1 - v ^ 2) ≤ 1 := by
        rw [Real.sqrt_le_left (by norm_num)]
        nlinarith
      have hspos : 0 < Real.sqrt (1 - v ^ 2) := Real.sqrt_pos.mpr hpos
      have hE : m ≤ m / Real.sqrt (1 - v ^ 2) := by
        rw [le_div_iff₀ hspos]
        have := mul_le_mul_of_nonneg_left hs1 hm.le
        simpa using this
      exact satInv_of_energy_ge_mass m _ q hm hE

/-- C2 counterexample: constructing with `mass=1, charge=1, energy=1/2`
goes through the public interface, succeeds, and yields a state violating
`energy >= mass` (and `gamma >= 1`), because the canonical `energy`
attribute is written without any validation. -/
theorem energy_seed_breaks_invariant :
    Beam.init 1 1 (some (1 / 2)) none none none none
      = Except.ok (Beam.mk 1 1 (1 / 2)) ∧
    ¬ (Beam.mk 1 1 (1 / 2)).satInv := by
  refine ⟨rfl, fun hinv => ?_⟩
  have h1 : (1 : ℝ) ≤ 1 / 2 := hinv.1
  norm_num at h1

/-- C2 amended: with positive mass, every state produced by a momentum,
gamma, beta or rigidity write satisfies the invariants
`energy >= mass`, `gamma >= 1`, `0 <= beta < 1`; and a direct energy
write preserves them exactly when the written value is at least the mass
(the energy attribute itself is unvalidated). -/
theorem invariants_after_writes (m E0 : ℝ) (q : ℤ) (hm : 0 < m) :
    (∀ p, ((Beam.mk m q E0).setMomentum p).satInv) ∧
    (∀ g b1, (Beam.mk m q E0).setGamma g = Except.ok b1 → b1.satInv) ∧
    (∀ v b1, (Beam.mk m q E0).setBeta v = Except.ok b1 → b1.satInv) ∧
    (∀ r, ((Beam.mk m q E0).setRigidity r).satInv) ∧
    (∀ e, m ≤ e → ((Beam.mk m q E0).setEnergy e).satInv) :=
  ⟨fun p => satInv_setMomentum m E0 p q hm,
   fun g b1 h => satInv_setGamma m E0 g q b1 hm h,
   fun v b1 h => satInv_setBeta m E0 v q b1 hm h,
   fun r => satInv_setMomentum m E0 _ q hm,
   fun e he => satInv_of_energy_ge_mass m e q hm he⟩

/-- C2 amended witness: at mass 1 the state after writing momentum 0
satisfies the invariants. -/
theorem invariants_after_writes_witness :
    ((0 : ℝ) < 1) ∧ ((Beam.mk 1 1 2).setMomentum 0).satInv :=
  ⟨by norm_num, (invariants_after_writes 1 2 1 (by norm_num)).1 0⟩

/-- C3 counterexample: writing `beta = -1/2` — a value outside `[0, 1)` —
to a beam with mass 1 succeeds (the setter performs no range check below
1 in absolute value) and changes the canonical energy, contradicting the
claim that every such write fails and leaves the energy unchanged. -/
theorem beta_write_negative_accepted :
    ((-(1 / 2) : ℝ) < 0) ∧
    (Beam.mk 1 1 2).setBeta (-(1 / 2))
      = Except.ok (Beam.mk 1 1 (1 / Real.sqrt (3 / 4))) := by
  refine ⟨by norm_num, ?_⟩
  have h1 : (1 : ℝ) - (-(1 / 2)) ^ 2 = 3 / 4 := by norm_num
  simp only [Beam.setBeta, h1]
  rw [if_neg (by norm_num), if_neg (by norm_num)]

/-- C3 amended: a beta write fails (raising, with the canonical energy
left unchanged) exactly when `beta^2 >= 1` — a math domain error for
`beta^2 > 1`, a zero division for `beta^2 = 1`; every value with
`beta^2 < 1`, including the negative values in `(-1, 0)` that lie outside
the documented `[0, 1)` range, is accepted and sets
`energy = mass / sqrt(1 - beta^2)`. -/
theorem beta_write_domain :
    (∀ (m E0 v : ℝ) (q : ℤ), 1 ≤ v ^ 2 →
       ((Beam.mk m q E0).setBeta v = Except.error "math domain error" ∨
        (Beam.mk m q E0).setBeta v = Except.error "division by zero") ∧
       (Beam.mk m q E0).writeBeta v = (Beam.mk m q E0, false)) ∧
    (∀ (m E0 v : ℝ) (q : ℤ), v ^ 2 < 1 →
       (Beam.mk m q E0).writeBeta v
         = (Beam.mk m q (m / Real.sqrt (1 - v ^ 2)), true)) := by
  constructor
  · intro m E0 v q h
    rcases eq_or_lt_of_le h with heq | hlt
    · have h2 : 1 - v ^ 2 = 0 := by linarith
      have h1 : ¬ (1 - v ^ 2 < 0) := by linarith
      have hs : (Beam.mk m q E0).setBeta v = Except.error "division by zero" := by
        simp [Beam.setBeta, h1, h2]
      exact ⟨Or.inr hs, by simp [Beam.writeBeta, hs]⟩
    · have h1 : 1 - v ^ 2 < 0 := by linarith
      have hs : (Beam.mk m q E0).setBeta v = Except.error "math domain error" := by
        simp [Beam.setBeta, h1]
      exact ⟨Or.inl hs, by simp [Beam.writeBeta, hs]⟩
  · intro m E0 v q h
    have h1 : ¬ (1 - v ^ 2 < 0) := by linarith
    have h2 : 1 - v ^ 2 ≠ 0 := by intro hh; linarith
    have hs : (Beam.mk m q E0).setBeta v
        = Except.ok (Beam.mk m q (m / Real.sqrt (1 - v ^ 2))) := by
      simp only [Beam.setBeta, if_neg h1, if_neg h2]
    simp [Beam.writeBeta, hs]

/-- C3 amended witness: `beta = 2` is rejected with the state unchanged;
`beta = -1/2` is accepted. -/
theorem beta_write_domain_witness :
    ((1 : ℝ) ≤ 2 ^ 2) ∧
    (Beam.mk 1 1 2).writeBeta 2 = (Beam.mk 1 1 2, false) ∧
    ((-(1 / 2) : ℝ) ^ 2 < 1) ∧
    (Beam.mk 1 1 2).writeBeta (-(1 / 2))
      = (Beam.mk 1 1 (1 / Real.sqrt (1 - (-(1 / 2)) ^ 2)), true) :=
  ⟨by norm_num, (beta_write_domain.1 1 2 2 1 (by norm_num)).2, by norm_num,
    beta_write_domain.2 1 2 (-(1 / 2)) 1 (by norm_num)⟩

end AccCompanion
